import Mathlib

/-!
Shallow embedding of `maas-report.py`, a script that fetches the machine
inventory from a MaaS server and prints a three-section status report.

The pure classifier and report renderer (`generate_report`, lines 37-110 of the
script) are embedded as executable Lean functions over a `Machine` record type.
The effectful skeleton (`get_maas_client` and `main`, lines 20-34 and 113-128)
is embedded as a function from the configuration (the two environment
variables) and the outcomes of the two network calls to a `RunResult` capturing
the text printed on each stream, the exit code and how many network calls were
attempted.

Strings are Lean `String`s; Python's `str.lower` is modelled per character with
`Char.toLower` (the script's status names and tags are ASCII), and Python's
substring test `sub in s` is modelled on the underlying character lists.
-/

/-- A MaaS user object; the script only ever reads its `username` field
(lines 81, 93, 105). -/
structure MaasUser where
  username : String
deriving DecidableEq

/-- A machine record as consumed by `generate_report`: the six attributes the
script reads (`hostname`, `system_id`, `status_name`, `status_message`,
`tags`, `owner`).  `status_message` and `owner` may be absent (`None`). -/
structure Machine where
  hostname : String
  system_id : String
  status_name : String
  status_message : Option String
  tags : List String
  owner : Option MaasUser
deriving DecidableEq

/-- Test whether the second character list is an initial segment of the
first. -/
def beginsWith : List Char → List Char → Bool
  | _, [] => true
  | [], _ :: _ => false
  | c :: s, d :: p => c == d && beginsWith s p

/-- Test whether `p` occurs as a contiguous segment of `s` (Python's
`p in s` substring test). -/
def containsSub (s p : List Char) : Bool :=
  match s with
  | [] => p.isEmpty
  | _ :: t => beginsWith s p || containsSub t p

/-- Lower-case every character (model of Python `str.lower` for the ASCII
strings the script manipulates). -/
def lowerChars (s : List Char) : List Char := s.map Char.toLower

/-- Python's substring test `sub in s` on Lean strings. -/
def strContains (s sub : String) : Bool := containsSub s.data sub.data

/-- Python's `s.lower()` on Lean strings. -/
def strLower (s : String) : String := String.mk (lowerChars s.data)

/-- Line 54 of the script: a status is a failed state when its lower-cased
name contains `"failed"` or `"broken"`. -/
def isFailedStatus (s : String) : Bool :=
  strContains (strLower s) "failed" || strContains (strLower s) "broken"

/-- Lines 48 and 67: `re.match` of the pattern `^DCOPS-.*` with `IGNORECASE`
against a tag.  Since `.*` matches the empty string, this holds exactly when
the tag starts, case-insensitively, with `"DCOPS-"`. -/
def dcopsMatch (tag : String) : Bool :=
  beginsWith (lowerChars tag.data) "dcops-".data

/-- Line 54 condition: the machine lands in the failed list. -/
def inFailed (m : Machine) : Bool := isFailedStatus m.status_name

/-- Lines 54, 59, 60, 63: the machine lands in the available list — it is not
in a failed state (the `continue` on line 56), its status is exactly `"Ready"`,
and the lower-cased tag list contains `"available"`. -/
def inAvailable (m : Machine) : Bool :=
  !inFailed m && m.status_name == "Ready" && (m.tags.map strLower).contains "available"

/-- Lines 54, 59, 67: the machine lands in the potential-issue list — it is
not in a failed state, its status is exactly `"Ready"`, and some tag matches
the `DCOPS-` pattern. -/
def inPotentialIssue (m : Machine) : Bool :=
  !inFailed m && m.status_name == "Ready" && m.tags.any dcopsMatch

/-- The three lists built by the categorisation loop (lines 43-45). -/
structure Classified where
  available_servers : List Machine
  potential_issue_servers : List Machine
  failed_servers : List Machine
deriving DecidableEq

/-- The categorisation loop of `generate_report` (lines 51-68).  The loop
appends each matching machine to the end of the corresponding list; the
structural recursion below builds the same lists (head results precede the
results of the rest of the input). -/
def classify : List Machine → Classified
  | [] => ⟨[], [], []⟩
  | m :: rest =>
    let c := classify rest
    if isFailedStatus m.status_name then
      ⟨c.available_servers, c.potential_issue_servers, m :: c.failed_servers⟩
    else if m.status_name == "Ready" then
      ⟨(if (m.tags.map strLower).contains "available" then m :: c.available_servers
        else c.available_servers),
       (if m.tags.any dcopsMatch then m :: c.potential_issue_servers
        else c.potential_issue_servers),
       c.failed_servers⟩
    else c

/-- Ordering used by the report: comparison of the `hostname` key, as in
`sorted(..., key=lambda x: x.hostname)` (lines 80, 92, 104).  Lean's `String`
order is lexicographic on the character sequence, like Python's. -/
def hostnameLe (a b : Machine) : Prop := a.hostname ≤ b.hostname

instance : DecidableRel hostnameLe :=
  fun a b => inferInstanceAs (Decidable (a.hostname ≤ b.hostname))

instance : IsTotal Machine hostnameLe := ⟨fun a b => le_total a.hostname b.hostname⟩

instance : IsTrans Machine hostnameLe := ⟨fun _ _ _ hab hbc => le_trans hab hbc⟩

/-- Python's `sorted(machines, key=lambda x: x.hostname)` (lines 80, 92, 104):
a stable ascending sort by hostname.  `sorted` is a stable sort, and insertion
sort is stable, so both produce the same list. -/
def sortByHostname (l : List Machine) : List Machine := l.insertionSort hostnameLe

/-- Python truthiness of an optional string: `None` and the empty string are
falsy, every other string is truthy. -/
def pyTruthy : Option String → Bool
  | none => false
  | some s => !(s == "")

/-- Python format specifier `:<n` — left-justify, padding on the right with
spaces up to a minimum width of `n` characters; longer values are kept in
full. -/
def ljust (s : String) (n : Nat) : String :=
  s ++ String.mk (List.replicate (n - s.length) ' ')

/-- Rendering of the tag list by `f"... Tags: \x7bm.tags\x7d"` (lines 82, 94):
Python prints the list as its `repr`, each tag quoted and separated by
commas. -/
def reprTags (tags : List String) : String :=
  "[" ++ String.intercalate ", " (tags.map fun t => "\x27" ++ t ++ "\x27") ++ "]"

/-- Lines 81, 93, 105: the owner's username, or `"Unassigned"` when the
machine has no owner. -/
def ownerDisplay (m : Machine) : String :=
  match m.owner with
  | some u => u.username
  | none => "Unassigned"

/-- The report line of the available and potential-issue sections (lines 82
and 94 use the same format string). -/
def serverLine (m : Machine) : String :=
  "  - Host: " ++ ljust m.hostname 25 ++ " System ID: " ++ ljust m.system_id 12 ++
    " Owner: " ++ ljust (ownerDisplay m) 15 ++ " Tags: " ++ reprTags m.tags

/-- Line 106: the message segment of a failed line, empty when
`status_message` is falsy (absent or the empty string). -/
def messageSegment (msg : Option String) : String :=
  if pyTruthy msg then "Message: " ++ msg.getD "" else ""

/-- The report line of the failed section (line 107). -/
def failedLine (m : Machine) : String :=
  "  - Host: " ++ ljust m.hostname 25 ++ " System ID: " ++ ljust m.system_id 12 ++
    " Status: " ++ ljust m.status_name 20 ++ " " ++ messageSegment m.status_message

/-- A banner of `n` equality signs (lines 71-73, 76-78, 88-90, 100-102). -/
def bannerEq (n : Nat) : String := String.mk (List.replicate n '=')

/-- Line 84: placeholder sentence of an empty available section. -/
def noneAvailableMsg : String :=
  "  No machines in \x27Ready\x27 state found with the \x27available\x27 tag."

/-- Line 96: placeholder sentence of an empty potential-issue section. -/
def nonePotentialMsg : String :=
  "  No machines in \x27Ready\x27 state found with a \x27DCOPS-*\x27 tag."

/-- Line 109: placeholder sentence of an empty failed section. -/
def noneFailedMsg : String :=
  "  No machines found in a failed or broken state."

/-- The report printed by `generate_report` (lines 70-110): each list element
is the argument of one `print` call, in order. -/
def reportLines (machines : List Machine) : List String :=
  let c := classify machines
  ["\n" ++ bannerEq 60,
   "        MaaS Machine Status Report",
   bannerEq 60 ++ "\n",
   bannerEq 30,
   "(servers available)",
   bannerEq 30] ++
  (if c.available_servers.isEmpty then [noneAvailableMsg]
   else (sortByHostname c.available_servers).map serverLine) ++
  ["\n", bannerEq 30, "(servers with potential issues)", bannerEq 30] ++
  (if c.potential_issue_servers.isEmpty then [nonePotentialMsg]
   else (sortByHostname c.potential_issue_servers).map serverLine) ++
  ["\n", bannerEq 40, "(Machines in any kind of failed state)", bannerEq 40] ++
  (if c.failed_servers.isEmpty then [noneFailedMsg]
   else (sortByHostname c.failed_servers).map failedLine) ++
  ["\n"]

/-- Line 23: the diagnostic printed when configuration is missing. -/
def configErrorMsg : String :=
  "Error: MAAS_API_URL and MAAS_API_KEY environment variables must be set."

/-- Observable outcome of one run of the script: the arguments of the `print`
calls on each stream, the exit code, and the number of network interactions
attempted (the connect-and-probe counts as one, the inventory fetch as a
second). -/
structure RunResult where
  stdout : List String
  stderr : List String
  exitCode : Nat
  networkCalls : Nat
deriving DecidableEq

/-- Control flow of `get_maas_client` and `main` (lines 20-34 and 113-128).
`url` and `apiKey` are the values of the two environment variables (`none`
when unset); `probe` is the outcome of `connect` plus `client.users.list()`
and `fetch` the outcome of `client.machines.list()`, each carrying the
textual description of the raised error on failure. -/
def runProgram (url apiKey : Option String) (probe : Except String Unit)
    (fetch : Except String (List Machine)) : RunResult :=
  if !pyTruthy url || !pyTruthy apiKey then
    ⟨[], [configErrorMsg], 1, 0⟩
  else
    let u := url.getD ""
    match probe with
    | Except.error e =>
      ⟨["--> Connecting to MaaS at " ++ u ++ "..."],
       ["Error connecting to MaaS: " ++ e], 1, 1⟩
    | Except.ok _ =>
      match fetch with
      | Except.error e =>
        ⟨["--> Connecting to MaaS at " ++ u ++ "...",
          "--> Successfully connected to MaaS.",
          "--> Fetching all machines from MaaS... (This might take a moment on large systems)"],
         ["Error fetching machines from MaaS: " ++ e], 1, 2⟩
      | Except.ok ms =>
        ⟨["--> Connecting to MaaS at " ++ u ++ "...",
          "--> Successfully connected to MaaS.",
          "--> Fetching all machines from MaaS... (This might take a moment on large systems)",
          "--> Found " ++ toString ms.length ++ " total machines."] ++
           reportLines ms ++ ["--> Report generation complete."],
         [], 0, 2⟩

/-- The machine list the report phase receives: the fetched list on success,
irrelevant on failure (the report phase is never reached). -/
def fetchedMachines : Except String (List Machine) → List Machine
  | Except.ok ms => ms
  | Except.error _ => []

/-- The available list built by the loop is the filter of the input by the
available condition. -/
theorem classify_available_eq (l : List Machine) :
    (classify l).available_servers = l.filter inAvailable := by
  induction l with
  | nil => rfl
  | cons m rest ih =>
    simp only [classify]
    cases hf : isFailedStatus m.status_name with
    | true => simp [List.filter_cons, inAvailable, inFailed, hf, ih]
    | false =>
      cases hr : (m.status_name == "Ready") with
      | true =>
        cases ha : (m.tags.map strLower).contains "available" with
        | true =>
          simp at ha
          simp [List.filter_cons, inAvailable, inFailed, hf, hr, ha, ih]
        | false =>
          simp at ha
          simp [List.filter_cons, inAvailable, inFailed, hf, hr, ih]
          rw [if_neg (by rintro ⟨a, hx, he⟩; exact ha a hx he)]
      | false => simp [List.filter_cons, inAvailable, inFailed, hf, hr, ih]

/-- The potential-issue list built by the loop is the filter of the input by
the potential-issue condition. -/
theorem classify_potential_eq (l : List Machine) :
    (classify l).potential_issue_servers = l.filter inPotentialIssue := by
  induction l with
  | nil => rfl
  | cons m rest ih =>
    simp only [classify]
    cases hf : isFailedStatus m.status_name with
    | true => simp [List.filter_cons, inPotentialIssue, inFailed, hf, ih]
    | false =>
      cases hr : (m.status_name == "Ready") with
      | true =>
        cases hd : m.tags.any dcopsMatch with
        | true => simp [List.filter_cons, inPotentialIssue, inFailed, hf, hr, hd, ih]
        | false => simp [List.filter_cons, inPotentialIssue, inFailed, hf, hr, hd, ih]
      | false => simp [List.filter_cons, inPotentialIssue, inFailed, hf, hr, ih]

/-- The failed list built by the loop is the filter of the input by the failed
condition. -/
theorem classify_failed_eq (l : List Machine) :
    (classify l).failed_servers = l.filter inFailed := by
  induction l with
  | nil => rfl
  | cons m rest ih =>
    simp only [classify]
    cases hf : isFailedStatus m.status_name with
    | true => simp [List.filter_cons, inFailed, hf, ih]
    | false =>
      cases hr : (m.status_name == "Ready") with
      | true => simp [List.filter_cons, inFailed, hf, hr, ih]
      | false => simp [List.filter_cons, inFailed, hf, hr, ih]

/-- Concrete machine in a failed state, carrying both interesting tags. -/
def mFailedSample : Machine :=
  ⟨"host-f", "sys-f", "Failed testing", some "disk error", ["available", "DCOPS-1"], none⟩

/-- Concrete machine in the Ready state with both interesting tags. -/
def mReadySample : Machine :=
  ⟨"host-r", "sys-r", "Ready", none, ["Available", "DCOPS-123"], none⟩

/-- Concrete machine whose status is the lower-case string "ready". -/
def mLowerReady : Machine :=
  ⟨"host-l", "sys-l", "ready", none, ["available"], none⟩

/-- C1: a machine whose lower-cased status name contains the substring
"failed" or "broken" is put in the failed list and in neither the available
list nor the potential-issue list, regardless of its tags. -/
theorem failed_status_exclusive (l : List Machine) (m : Machine) (hm : m ∈ l)
    (hf : isFailedStatus m.status_name = true) :
    m ∈ (classify l).failed_servers ∧ m ∉ (classify l).available_servers ∧
      m ∉ (classify l).potential_issue_servers := by
  refine ⟨?_, ?_, ?_⟩
  · rw [classify_failed_eq]
    exact List.mem_filter.mpr ⟨hm, by simpa [inFailed] using hf⟩
  · rw [classify_available_eq]
    intro hmem
    have h := (List.mem_filter.mp hmem).2
    simp [inAvailable, inFailed, hf] at h
  · rw [classify_potential_eq]
    intro hmem
    have h := (List.mem_filter.mp hmem).2
    simp [inPotentialIssue, inFailed, hf] at h

/-- Witness for C1 at a concrete machine with status "Failed testing". -/
theorem failed_status_exclusive_w :
    mFailedSample ∈ (classify [mFailedSample]).failed_servers ∧
      mFailedSample ∉ (classify [mFailedSample]).available_servers ∧
      mFailedSample ∉ (classify [mFailedSample]).potential_issue_servers :=
  failed_status_exclusive [mFailedSample] mFailedSample (List.mem_singleton.mpr rfl) (by decide)

/-- C2: a machine that is not in a failed state reaches the available or
potential-issue list only when its status name is exactly the string "Ready",
and a non-failed machine whose status is not exactly "Ready" (for instance
the lower-case "ready") is in none of the three lists. -/
theorem ready_requires_exact_match (l : List Machine) (m : Machine) (hm : m ∈ l) :
    ((m ∈ (classify l).available_servers ∨ m ∈ (classify l).potential_issue_servers) →
        m.status_name = "Ready") ∧
      (isFailedStatus m.status_name = false → m.status_name ≠ "Ready" →
        m ∉ (classify l).available_servers ∧ m ∉ (classify l).potential_issue_servers ∧
          m ∉ (classify l).failed_servers) := by
  constructor
  · rintro (h | h)
    · have h2 := (List.mem_filter.mp ((classify_available_eq l) ▸ h)).2
      simp only [inAvailable, Bool.and_eq_true, beq_iff_eq] at h2
      exact h2.1.2
    · have h2 := (List.mem_filter.mp ((classify_potential_eq l) ▸ h)).2
      simp only [inPotentialIssue, Bool.and_eq_true, beq_iff_eq] at h2
      exact h2.1.2
  · intro hnf hnr
    refine ⟨?_, ?_, ?_⟩
    · rw [classify_available_eq]
      intro hmem
      have h := (List.mem_filter.mp hmem).2
      simp [inAvailable, hnr] at h
    · rw [classify_potential_eq]
      intro hmem
      have h := (List.mem_filter.mp hmem).2
      simp [inPotentialIssue, hnr] at h
    · rw [classify_failed_eq]
      intro hmem
      have h := (List.mem_filter.mp hmem).2
      simp [inFailed, hnf] at h

/-- Witness for C2 at a concrete machine with the lower-case status "ready". -/
theorem ready_requires_exact_match_w :
    mLowerReady ∉ (classify [mLowerReady]).available_servers ∧
      mLowerReady ∉ (classify [mLowerReady]).potential_issue_servers ∧
      mLowerReady ∉ (classify [mLowerReady]).failed_servers :=
  (ready_requires_exact_match [mLowerReady] mLowerReady (List.mem_singleton.mpr rfl)).2
    (by decide) (by decide)

/-- C3: for a machine with status exactly "Ready", membership in the available
list is equivalent to the lower-cased tag list containing "available",
membership in the potential-issue list is equivalent to some tag starting with
"DCOPS-" case-insensitively; both can hold at once, and an empty tag list
yields neither membership and no error. -/
theorem ready_tag_classification (l : List Machine) (m : Machine) (hm : m ∈ l)
    (hr : m.status_name = "Ready") :
    (m ∈ (classify l).available_servers ↔ (m.tags.map strLower).contains "available" = true) ∧
      (m ∈ (classify l).potential_issue_servers ↔ m.tags.any dcopsMatch = true) ∧
      (m.tags = [] →
        m ∉ (classify l).available_servers ∧ m ∉ (classify l).potential_issue_servers) := by
  have hf : isFailedStatus m.status_name = false := by rw [hr]; decide
  refine ⟨?_, ?_, ?_⟩
  · rw [classify_available_eq]
    constructor
    · intro h
      have h2 := (List.mem_filter.mp h).2
      simp only [inAvailable, Bool.and_eq_true] at h2
      exact h2.2
    · intro h
      refine List.mem_filter.mpr ⟨hm, ?_⟩
      simp only [inAvailable, Bool.and_eq_true, beq_iff_eq]
      refine ⟨⟨?_, hr⟩, h⟩
      simp only [inFailed, hr]
      decide
  · rw [classify_potential_eq]
    constructor
    · intro h
      have h2 := (List.mem_filter.mp h).2
      simp only [inPotentialIssue, Bool.and_eq_true] at h2
      exact h2.2
    · intro h
      refine List.mem_filter.mpr ⟨hm, ?_⟩
      simp only [inPotentialIssue, Bool.and_eq_true, beq_iff_eq]
      refine ⟨⟨?_, hr⟩, h⟩
      simp only [inFailed, hr]
      decide
  · intro ht
    constructor
    · rw [classify_available_eq]
      intro hmem
      have h := (List.mem_filter.mp hmem).2
      simp [inAvailable, ht] at h
    · rw [classify_potential_eq]
      intro hmem
      have h := (List.mem_filter.mp hmem).2
      simp [inPotentialIssue, ht] at h

/-- Witness for C3 at a concrete Ready machine tagged "Available" and
"DCOPS-123", which lands in both lists. -/
theorem ready_tag_classification_w :
    mReadySample ∈ (classify [mReadySample]).available_servers ∧
      mReadySample ∈ (classify [mReadySample]).potential_issue_servers := by
  have h := ready_tag_classification [mReadySample] mReadySample (List.mem_singleton.mpr rfl) rfl
  exact ⟨h.1.mpr (by decide), h.2.1.mpr (by decide)⟩

/-- Concrete Ready machine with the "available" tag and no optional fields. -/
def mTwinA : Machine := ⟨"host-a", "sys-a", "Ready", none, ["available"], none⟩

/-- Concrete machine agreeing with `mTwinA` on status and tags only. -/
def mTwinB : Machine :=
  ⟨"host-b", "sys-b", "Ready", some "note", ["available"], some ⟨"alice"⟩⟩

/-- C8: classification is deterministic and depends only on the status name
and the tags — two machines agreeing on those two fields have identical
membership in each of the three categories, whatever their other fields. -/
theorem classification_depends_only_on_status_and_tags
    (l₁ l₂ : List Machine) (m₁ m₂ : Machine) (h₁ : m₁ ∈ l₁) (h₂ : m₂ ∈ l₂)
    (hs : m₁.status_name = m₂.status_name) (ht : m₁.tags = m₂.tags) :
    (m₁ ∈ (classify l₁).available_servers ↔ m₂ ∈ (classify l₂).available_servers) ∧
      (m₁ ∈ (classify l₁).potential_issue_servers ↔
        m₂ ∈ (classify l₂).potential_issue_servers) ∧
      (m₁ ∈ (classify l₁).failed_servers ↔ m₂ ∈ (classify l₂).failed_servers) := by
  have ha : inAvailable m₁ = inAvailable m₂ := by simp [inAvailable, inFailed, hs, ht]
  have hp : inPotentialIssue m₁ = inPotentialIssue m₂ := by
    simp [inPotentialIssue, inFailed, hs, ht]
  have hfl : inFailed m₁ = inFailed m₂ := by simp [inFailed, hs]
  refine ⟨?_, ?_, ?_⟩
  · rw [classify_available_eq, classify_available_eq]
    simp [List.mem_filter, h₁, h₂, ha]
  · rw [classify_potential_eq, classify_potential_eq]
    simp [List.mem_filter, h₁, h₂, hp]
  · rw [classify_failed_eq, classify_failed_eq]
    simp [List.mem_filter, h₁, h₂, hfl]

/-- Witness for C8 at two concrete machines differing in hostname, system id,
owner and status message but agreeing on status and tags. -/
theorem classification_depends_only_on_status_and_tags_w :
    mTwinA ∈ (classify [mTwinA]).available_servers ↔
      mTwinB ∈ (classify [mTwinB]).available_servers :=
  (classification_depends_only_on_status_and_tags [mTwinA] [mTwinB] mTwinA mTwinB
    (List.mem_singleton.mpr rfl) (List.mem_singleton.mpr rfl) rfl rfl).1

/-- Inserting a machine with `orderedInsert` does not change, for any hostname
`h`, the subsequence of machines carrying that hostname, beyond placing the
inserted machine first among its equals — the filter by any hostname agrees
with filtering the machine consed in front. -/
theorem filter_orderedInsert_hostname (h : String) (a : Machine) (l : List Machine) :
    (l.orderedInsert hostnameLe a).filter (fun m => m.hostname == h) =
      (a :: l).filter (fun m => m.hostname == h) := by
  induction l with
  | nil => rfl
  | cons b t ih =>
    by_cases hab : hostnameLe a b
    · rw [List.orderedInsert_of_le _ _ hab]
    · have hlt : b.hostname < a.hostname := not_le.mp hab
      simp only [List.orderedInsert]
      rw [if_neg hab]
      cases hpa : (a.hostname == h) with
      | true =>
        have ha' : a.hostname = h := beq_iff_eq.mp hpa
        have hbne : (b.hostname == h) = false := by
          apply beq_eq_false_iff_ne.mpr
          intro hb
          exact absurd (hb.trans ha'.symm) (ne_of_lt hlt)
        simp [List.filter_cons, hpa, hbne, ih]
      | false =>
        simp [List.filter_cons, hpa, ih]

/-- Stability of the report's sort: for every hostname, the machines carrying
it appear in the sorted list exactly in their input order. -/
theorem filter_sortByHostname (h : String) (l : List Machine) :
    (sortByHostname l).filter (fun m => m.hostname == h) =
      l.filter (fun m => m.hostname == h) := by
  induction l with
  | nil => rfl
  | cons a t ih =>
    simp only [sortByHostname, List.insertionSort] at ih ⊢
    rw [filter_orderedInsert_hostname]
    simp [List.filter_cons, ih]

/-- The report's sort produces a list ascending in the hostname order. -/
theorem sortByHostname_sorted (l : List Machine) :
    List.Sorted hostnameLe (sortByHostname l) := by
  unfold sortByHostname
  exact List.sorted_insertionSort hostnameLe l

/-- C4: within each of the three report sections the printed entries are
ordered ascending by hostname, and entries with equal hostnames keep their
relative input order (the sort applied to each classified list is stable). -/
theorem report_sections_sorted_and_stable (machines : List Machine) :
    (List.Sorted hostnameLe (sortByHostname (classify machines).available_servers) ∧
        ∀ h, (sortByHostname (classify machines).available_servers).filter
              (fun m => m.hostname == h) =
            (classify machines).available_servers.filter (fun m => m.hostname == h)) ∧
      (List.Sorted hostnameLe (sortByHostname (classify machines).potential_issue_servers) ∧
        ∀ h, (sortByHostname (classify machines).potential_issue_servers).filter
              (fun m => m.hostname == h) =
            (classify machines).potential_issue_servers.filter (fun m => m.hostname == h)) ∧
      (List.Sorted hostnameLe (sortByHostname (classify machines).failed_servers) ∧
        ∀ h, (sortByHostname (classify machines).failed_servers).filter
              (fun m => m.hostname == h) =
            (classify machines).failed_servers.filter (fun m => m.hostname == h)) :=
  ⟨⟨sortByHostname_sorted _, fun h => filter_sortByHostname h _⟩,
    ⟨sortByHostname_sorted _, fun h => filter_sortByHostname h _⟩,
    ⟨sortByHostname_sorted _, fun h => filter_sortByHostname h _⟩⟩

/-- C9: on the empty input the report function terminates and prints each of
the three section-specific "none found" sentences. -/
theorem empty_report_prints_none_found :
    noneAvailableMsg ∈ reportLines [] ∧ nonePotentialMsg ∈ reportLines [] ∧
      noneFailedMsg ∈ reportLines [] := by decide

/-- C10: a failed machine with the empty string as status message renders
exactly like one with the message absent — the message segment is omitted in
both cases. -/
theorem empty_message_renders_like_absent (h si sn : String) (tags : List String)
    (ow : Option MaasUser) :
    failedLine ⟨h, si, sn, some "", tags, ow⟩ = failedLine ⟨h, si, sn, none, tags, ow⟩ := by
  simp [failedLine, messageSegment, pyTruthy]

/-- Shape asserted by the claim for the available and potential-issue lines:
every field occupies exactly its stated display width (25, 12 and 15), padded
or truncated as needed. -/
def claimedServerLineShape (m : Machine) : Prop :=
  ∃ f₁ f₂ f₃ : String, f₁.length = 25 ∧ f₂.length = 12 ∧ f₃.length = 15 ∧
    serverLine m = "  - Host: " ++ f₁ ++ " System ID: " ++ f₂ ++ " Owner: " ++ f₃ ++
      " Tags: " ++ reprTags m.tags

/-- Concrete Ready machine whose hostname has 26 characters. -/
def mLongHost : Machine :=
  ⟨"abcdefghijklmnopqrstuvwxyz", "sys-long", "Ready", none, [], none⟩

/-- Counterexample for C7: the script never truncates — a 26-character
hostname is rendered in full, so its line does not consist of fields of the
claimed exact display widths. -/
theorem server_line_width_claim_false : ¬ claimedServerLineShape mLongHost := by
  rintro ⟨f₁, f₂, f₃, h₁, h₂, h₃, heq⟩
  have hL : (serverLine mLongHost).length = 92 := by decide
  rw [heq] at hL
  have e₁ : "  - Host: ".length = 10 := rfl
  have e₂ : " System ID: ".length = 12 := rfl
  have e₃ : " Owner: ".length = 8 := rfl
  have e₄ : " Tags: ".length = 7 := rfl
  have e₅ : (reprTags mLongHost.tags).length = 2 := by decide
  simp only [String.length_append, h₁, h₂, h₃, e₁, e₂, e₃, e₄, e₅] at hL
  omega

/-- C7 amended: the fields of every report line are left-justified and padded
on the right with spaces up to minimum display widths (25 for the hostname, 12
for the system id, 15 for the owner, 20 for the status name); values longer
than the width are rendered in full, never truncated.  A server line then
carries the owner's username (or "Unassigned" when there is no owner) and the
raw tag collection; a failed line carries the status name and a message
segment that is omitted entirely when the status message is absent and spells
the message when present. -/
theorem line_rendering_format (m : Machine) :
    (∀ (v : String) (w : Nat),
        (ljust v w).length = max v.length w ∧
          (ljust v w).data = v.data ++ List.replicate (w - v.length) ' ') ∧
      serverLine m =
        "  - Host: " ++ ljust m.hostname 25 ++ " System ID: " ++ ljust m.system_id 12 ++
          " Owner: " ++ ljust (ownerDisplay m) 15 ++ " Tags: " ++ reprTags m.tags ∧
      failedLine m =
        "  - Host: " ++ ljust m.hostname 25 ++ " System ID: " ++ ljust m.system_id 12 ++
          " Status: " ++ ljust m.status_name 20 ++ " " ++ messageSegment m.status_message ∧
      (m.owner = none → ownerDisplay m = "Unassigned") ∧
      (pyTruthy m.status_message = false → messageSegment m.status_message = "") ∧
      (∀ s : String, m.status_message = some s → s ≠ "" →
        messageSegment m.status_message = "Message: " ++ s) := by
  refine ⟨?_, rfl, rfl, ?_, ?_, ?_⟩
  · intro v w
    constructor
    · show (v ++ String.mk (List.replicate (w - v.length) ' ')).length = _
      rw [String.length_append]
      show v.length + (List.replicate (w - v.length) ' ').length = _
      rw [List.length_replicate]
      cases Nat.le_total v.length w with
      | inl h => rw [Nat.max_eq_right h]; omega
      | inr h => rw [Nat.max_eq_left h]; omega
    · show (v ++ String.mk (List.replicate (w - v.length) ' ')).data = _
      rw [String.data_append]
  · intro h
    simp [ownerDisplay, h]
  · intro h
    simp [messageSegment, h]
  · intro s hs hne
    simp [messageSegment, pyTruthy, hs, hne]

/-- Witness for the amended C7: the message segment of a concrete failed
machine with a present, non-empty status message. -/
theorem line_rendering_format_w :
    messageSegment mFailedSample.status_message = "Message: " ++ "disk error" :=
  (line_rendering_format mFailedSample).2.2.2.2.2 "disk error" rfl (by decide)

/-- A string prefix (on the character lists) survives appending on the
right. -/
theorem data_isStart_append (p s r : String) (h : p.data <+: s.data) :
    p.data <+: (s ++ r).data := by
  rw [String.data_append]
  exact h.trans (List.prefix_append _ _)

/-- C5: a missing environment variable aborts the run with exit code 1,
the configuration error on the diagnostic stream and no network call
attempted; an error raised by the connectivity probe or by the inventory
fetch aborts with exit code 1 and its textual description contained in a
diagnostic line; when both calls succeed the run exits with code 0. -/
theorem exit_code_contract (url apiKey : Option String) (probe : Except String Unit)
    (fetch : Except String (List Machine)) :
    ((url = none ∨ apiKey = none) →
        (runProgram url apiKey probe fetch).exitCode = 1 ∧
          (runProgram url apiKey probe fetch).networkCalls = 0 ∧
          configErrorMsg ∈ (runProgram url apiKey probe fetch).stderr) ∧
      (∀ e : String, pyTruthy url = true → pyTruthy apiKey = true →
          probe = Except.error e →
        (runProgram url apiKey probe fetch).exitCode = 1 ∧
          ∃ line ∈ (runProgram url apiKey probe fetch).stderr, e.data <:+: line.data) ∧
      (∀ e : String, pyTruthy url = true → pyTruthy apiKey = true →
          probe = Except.ok () → fetch = Except.error e →
        (runProgram url apiKey probe fetch).exitCode = 1 ∧
          ∃ line ∈ (runProgram url apiKey probe fetch).stderr, e.data <:+: line.data) ∧
      (∀ ms : List Machine, pyTruthy url = true → pyTruthy apiKey = true →
          probe = Except.ok () → fetch = Except.ok ms →
        (runProgram url apiKey probe fetch).exitCode = 0) := by
  refine ⟨?_, ?_, ?_, ?_⟩
  · intro h
    have hcond : (!pyTruthy url || !pyTruthy apiKey) = true := by
      rcases h with h | h <;> simp [h, pyTruthy]
    simp [runProgram, hcond, configErrorMsg]
  · intro e hu hk hp
    subst hp
    have hcond : (!pyTruthy url || !pyTruthy apiKey) = false := by simp [hu, hk]
    have hrun : runProgram url apiKey (Except.error e) fetch =
        ⟨["--> Connecting to MaaS at " ++ url.getD "" ++ "..."],
         ["Error connecting to MaaS: " ++ e], 1, 1⟩ := by
      simp [runProgram, hcond]
    rw [hrun]
    refine ⟨rfl, "Error connecting to MaaS: " ++ e, List.mem_singleton.mpr rfl, ?_⟩
    rw [String.data_append]
    exact (List.suffix_append _ _).isInfix
  · intro e hu hk hp hf
    subst hp
    subst hf
    have hcond : (!pyTruthy url || !pyTruthy apiKey) = false := by simp [hu, hk]
    have hrun : runProgram url apiKey (Except.ok ()) (Except.error e) =
        ⟨["--> Connecting to MaaS at " ++ url.getD "" ++ "...",
          "--> Successfully connected to MaaS.",
          "--> Fetching all machines from MaaS... (This might take a moment on large systems)"],
         ["Error fetching machines from MaaS: " ++ e], 1, 2⟩ := by
      simp [runProgram, hcond]
    rw [hrun]
    refine ⟨rfl, "Error fetching machines from MaaS: " ++ e, List.mem_singleton.mpr rfl, ?_⟩
    rw [String.data_append]
    exact (List.suffix_append _ _).isInfix
  · intro ms hu hk hp hf
    subst hp
    subst hf
    have hcond : (!pyTruthy url || !pyTruthy apiKey) = false := by simp [hu, hk]
    simp [runProgram, hcond]

/-- Witness for C5: a concrete run whose connectivity probe raises. -/
theorem exit_code_contract_w :
    (runProgram (some "http://maas.example") (some "key")
          (Except.error "connection refused") (Except.ok [])).exitCode = 1 ∧
      ∃ line ∈ (runProgram (some "http://maas.example") (some "key")
          (Except.error "connection refused") (Except.ok [])).stderr,
        "connection refused".data <:+: line.data :=
  (exit_code_contract (some "http://maas.example") (some "key")
      (Except.error "connection refused") (Except.ok [])).2.1 "connection refused"
    (by decide) (by decide) rfl

/-- Counterexample for C6: in a successful concrete run the connection
progress message — which is not one of the report's print calls — is written
to standard output, so standard output does not carry the report alone. -/
theorem stdout_contains_non_report_text :
    "--> Connecting to MaaS at http://maas..." ∈
        (runProgram (some "http://maas") (some "key") (Except.ok ())
          (Except.ok [])).stdout ∧
      "--> Connecting to MaaS at http://maas..." ∉ reportLines [] := by
  constructor
  · decide
  · decide

/-- C6 amended: every line on the error stream is an error diagnostic
(starting with "Error"), while standard output carries, besides the report
lines, the progress messages starting with the arrow marker. -/
theorem stderr_is_diagnostics_stdout_report_and_progress (url apiKey : Option String)
    (probe : Except String Unit) (fetch : Except String (List Machine)) :
    (∀ line ∈ (runProgram url apiKey probe fetch).stderr, "Error".data <+: line.data) ∧
      (∀ line ∈ (runProgram url apiKey probe fetch).stdout,
        "-->".data <+: line.data ∨ line ∈ reportLines (fetchedMachines fetch)) := by
  by_cases hcond : (!pyTruthy url || !pyTruthy apiKey) = true
  · constructor
    · intro line hline
      simp [runProgram, hcond] at hline
      subst hline
      decide
    · intro line hline
      simp [runProgram, hcond] at hline
  · have hcond' : (!pyTruthy url || !pyTruthy apiKey) = false :=
      Bool.eq_false_iff.mpr hcond
    cases probe with
    | error e =>
      constructor
      · intro line hline
        simp [runProgram, hcond'] at hline
        subst hline
        exact data_isStart_append _ _ _ (by decide)
      · intro line hline
        simp [runProgram, hcond'] at hline
        subst hline
        exact Or.inl (data_isStart_append _ _ _
          (data_isStart_append _ _ _ (by decide)))
    | ok _ =>
      cases fetch with
      | error e =>
        constructor
        · intro line hline
          simp [runProgram, hcond'] at hline
          subst hline
          exact data_isStart_append _ _ _ (by decide)
        · intro line hline
          simp [runProgram, hcond'] at hline
          rcases hline with h | h | h
          · subst h
            exact Or.inl (data_isStart_append _ _ _
              (data_isStart_append _ _ _ (by decide)))
          · subst h
            exact Or.inl (by decide)
          · subst h
            exact Or.inl (by decide)
      | ok ms =>
        constructor
        · intro line hline
          simp [runProgram, hcond'] at hline
        · intro line hline
          simp [runProgram, hcond'] at hline
          rcases hline with h | h | h | h | h | h
          · subst h
            exact Or.inl (data_isStart_append _ _ _
              (data_isStart_append _ _ _ (by decide)))
          · subst h
            exact Or.inl (by decide)
          · subst h
            exact Or.inl (by decide)
          · subst h
            exact Or.inl (data_isStart_append _ _ _
              (data_isStart_append _ _ _ (by decide)))
          · exact Or.inr (by simpa [fetchedMachines] using h)
          · subst h
            exact Or.inl (by decide)

/-- Witness for the amended C6: the configuration diagnostic of a concrete
run with no configured URL starts with "Error". -/
theorem stderr_is_diagnostics_w : "Error".data <+: configErrorMsg.data :=
  (stderr_is_diagnostics_stdout_report_and_progress none none (Except.ok ())
      (Except.ok [])).1 configErrorMsg (by decide)
